import Mathlib

/-!
Verification of the distill repository (an AI-assisted commit tool).
The development shallowly embeds the three source files:
`src/config.rs` (credential loading), `src/git.rs` (the repository
manager: signature resolution, staged-diff serialization, commit) and
`src/main.rs` (the orchestrator).  Machine strings are Lean `String`s,
byte buffers are `List Nat` (each element a byte value), and the
external libgit2 engine is abstracted as oracles/parameters where the
repository code merely consumes its results.
-/

deriving instance DecidableEq for Except

namespace Distill

/-- One byte of a UTF-8 continuation: `0x80 ≤ b ≤ 0xBF`. -/
def isCont (b : Nat) : Bool :=
  decide (0x80 ≤ b ∧ b ≤ 0xbf)

/-- UTF-8 decoding of a byte list, mirroring Rust's `std::str::from_utf8`
validation: rejects overlong encodings, surrogates and code points above
`0x10FFFF`; returns the decoded characters otherwise. -/
def utf8DecodeList : List Nat → Option (List Char)
  | [] => some []
  | b :: bs =>
    if b < 0x80 then
      (utf8DecodeList bs).map (fun cs => Char.ofNat b :: cs)
    else if 0xc2 ≤ b ∧ b ≤ 0xdf then
      match bs with
      | b1 :: bs1 =>
        if isCont b1 then
          (utf8DecodeList bs1).map
            (fun cs => Char.ofNat ((b - 0xc0) * 64 + (b1 - 0x80)) :: cs)
        else none
      | [] => none
    else if 0xe0 ≤ b ∧ b ≤ 0xef then
      match bs with
      | b1 :: b2 :: bs2 =>
        if isCont b1 ∧ isCont b2 ∧ (b ≠ 0xe0 ∨ 0xa0 ≤ b1) ∧ (b ≠ 0xed ∨ b1 ≤ 0x9f) then
          (utf8DecodeList bs2).map
            (fun cs => Char.ofNat ((b - 0xe0) * 4096 + (b1 - 0x80) * 64 + (b2 - 0x80)) :: cs)
        else none
      | _ => none
    else if 0xf0 ≤ b ∧ b ≤ 0xf4 then
      match bs with
      | b1 :: b2 :: b3 :: bs3 =>
        if isCont b1 ∧ isCont b2 ∧ isCont b3 ∧ (b ≠ 0xf0 ∨ 0x90 ≤ b1) ∧ (b ≠ 0xf4 ∨ b1 ≤ 0x8f) then
          (utf8DecodeList bs3).map
            (fun cs => Char.ofNat
              ((b - 0xf0) * 262144 + (b1 - 0x80) * 4096 + (b2 - 0x80) * 64 + (b3 - 0x80)) :: cs)
        else none
      | _ => none
    else none

/-- `std::str::from_utf8` on a byte list: `some` of the decoded string when
the bytes are valid UTF-8, `none` otherwise. -/
def from_utf8 (bs : List Nat) : Option String :=
  (utf8DecodeList bs).map (fun cs => String.mk cs)

/-- One line produced by the diff engine: its origin marker character and
its raw content bytes (`git2::DiffLine::origin` / `content`). -/
structure DiffLine where
  origin : Char
  content : List Nat
  deriving DecidableEq, Repr

/-- The body of the closure passed to `diff.print` in
`GitManager::get_staged_diff` (src/git.rs lines 84-109): one diff line is
folded into the accumulated output string.  For origins `'+'`, `'-'`,
`' '` the origin character is pushed first, then the content if it
decodes; for `'F'` the content is emitted behind `"--- "` and for `'H'`
behind `"@@ "`, in both cases only when it decodes; other origins emit
nothing. -/
def printLine (acc : String) (line : DiffLine) : String :=
  if line.origin = '+' ∨ line.origin = '-' ∨ line.origin = ' ' then
    let acc1 := acc.push line.origin
    match from_utf8 line.content with
    | some c => acc1 ++ c
    | none => acc1
  else if line.origin = 'F' then
    match from_utf8 line.content with
    | some c => acc ++ "--- " ++ c
    | none => acc
  else if line.origin = 'H' then
    match from_utf8 line.content with
    | some c => acc ++ "@@ " ++ c
    | none => acc
  else
    acc

/-- Serialization of a whole diff: the lines in the engine's encounter
order, folded through `printLine` starting from the empty string. -/
def serializeDiff (lines : List DiffLine) : String :=
  lines.foldl printLine ""

/-- A git signature: an author/committer name and email pair
(`git2::Signature`; the timestamp is irrelevant to every claim and is
omitted). -/
structure Signature where
  name : String
  email : String
  deriving DecidableEq, Repr

/-- A commit object: tree id, parent commit ids, author and committer
signatures, and the message. -/
structure CommitObj where
  tree : Nat
  parents : List Nat
  author : Signature
  committer : Signature
  message : String
  deriving DecidableEq, Repr

/-- The observable repository state behind a `GitManager`.
`config` is the layered git configuration as a key/value list (`none`
models `repo.config()` itself failing); `indexTree` is the
content-addressed id of the tree that `index.write_tree()` produces from
the current index; `head` is the commit id HEAD resolves to (`none`
models an unresolvable HEAD); `commits` is the commit object store;
`odbTrees` records tree ids written to the object database; `nextId`
supplies the id of the next created commit object. -/
structure RepoState where
  config : Option (List (String × String))
  indexTree : Nat
  head : Option Nat
  commits : List (Nat × CommitObj)
  odbTrees : List Nat
  nextId : Nat
  deriving DecidableEq, Repr

/-- The fallback identity literal from `GitManager::get_signature`. -/
def fallbackSignature : Signature :=
  ⟨"Distill", "distill@example.com"⟩

/-- libgit2's `git__isspace` on one character (ASCII whitespace). -/
def isGitSpace (c : Char) : Bool :=
  c == ' ' || c == '\t' || c == '\n' || c == '\x0b' || c == '\x0c' || c == '\r'

/-- libgit2's `extract_trimmed` in signature.c: drop leading and
trailing whitespace from a signature field. -/
def extractTrimmed (s : String) : String :=
  String.mk (((s.data.dropWhile isGitSpace).reverse.dropWhile isGitSpace).reverse)

/-- libgit2's `contains_angle_brackets` in signature.c. -/
def containsAngle (s : String) : Bool :=
  s.data.any (fun c => c == '<' || c == '>')

/-- `git2::Signature::now`, which delegates to libgit2's
`git_signature_new` (signature.c): reject a name or email containing
angle brackets, trim whitespace from both fields, reject an empty
trimmed name or email, and otherwise build the signature from the
trimmed values. -/
def signature_now (name email : String) : Except String Signature :=
  if containsAngle name || containsAngle email then
    .error "neither `name` nor `email` should contain angle brackets chars"
  else
    let n := extractTrimmed name
    let e := extractTrimmed email
    if n = "" ∨ e = "" then
      .error "Signature cannot have an empty name or email"
    else
      .ok ⟨n, e⟩

/-- The fallback branch of `GitManager::get_signature`:
`Signature::now("Distill", "distill@example.com")` with its `anyhow`
context.  (It always succeeds — see `fallback_signature_ok`.) -/
def fallbackSignatureResult : Except String Signature :=
  match signature_now "Distill" "distill@example.com" with
  | .ok sig => .ok sig
  | .error e => .error ("Failed to create default signature: " ++ e)

/-- `GitManager::get_signature` (src/git.rs lines 149-166): if the
repository configuration opens and both `user.name` and `user.email`
can be read, the result of `Signature::now` on exactly those strings is
returned — including its error, with the config-signature context; in
every other case the fallback identity is built (and that always
succeeds, its non-empty literals passing `Signature::now`). -/
def get_signature (s : RepoState) : Except String Signature :=
  match s.config with
  | some cfg =>
    match cfg.lookup "user.name", cfg.lookup "user.email" with
    | some n, some e =>
      match signature_now n e with
      | .ok sig => .ok sig
      | .error e1 => .error ("Failed to create signature from git config: " ++ e1)
    | some _, none => fallbackSignatureResult
    | none, some _ => fallbackSignatureResult
    | none, none => fallbackSignatureResult
  | none => fallbackSignatureResult

/-- `GitManager::commit` (src/git.rs lines 116-146): resolve the
signature first — propagating its failure with the
"Failed to create git signature" context — then write the index to a
tree, resolve HEAD to the single parent commit, and create the new
commit with that tree, that one parent, the signature as both author
and committer, and the message verbatim, moving HEAD to the new commit.
Errors carry the `anyhow` context strings of the corresponding failure
points; the index write and object writes, whose failures are
environmental I/O faults independent of the modelled state, are the
only collapsed error sources. -/
def commit (s : RepoState) (message : String) : Except String RepoState :=
  match get_signature s with
  | .error e => .error ("Failed to create git signature: " ++ e)
  | .ok signature =>
    let tree_id := s.indexTree
    match s.head with
    | none => .error "Failed to get HEAD reference"
    | some parentId =>
      match s.commits.lookup parentId with
      | none => .error "Failed to get parent commit"
      | some _parent =>
        let c : CommitObj := ⟨tree_id, [parentId], signature, signature, message⟩
        .ok { s with
                odbTrees := tree_id :: s.odbTrees
                commits := (s.nextId, c) :: s.commits
                head := some s.nextId
                nextId := s.nextId + 1 }

/-- `GitManager::get_staged_diff` (src/git.rs lines 63-113): resolve
HEAD and peel it to its tree, write the index to a tree object
(recorded in the object database), hand both trees to the diff engine,
and serialize the resulting lines with `printLine`.  The libgit2 diff
computation is external to the repository, so it enters as the function
parameter `engine` from the two tree ids to the line sequence. -/
def get_staged_diff (engine : Nat → Nat → List DiffLine) (s : RepoState) :
    Except String (String × RepoState) :=
  match s.head with
  | none => .error "Failed to get HEAD reference"
  | some headId =>
    match s.commits.lookup headId with
    | none => .error "Failed to get HEAD tree"
    | some headCommit =>
      let head_tree := headCommit.tree
      let index_tree := s.indexTree
      let s1 : RepoState := { s with odbTrees := index_tree :: s.odbTrees }
      let lines := engine head_tree index_tree
      .ok (serializeDiff lines, s1)

/-- Rust's `char::is_whitespace`: membership in the Unicode White_Space
set (25 code points). -/
def isRustWhitespace (c : Char) : Bool :=
  ([0x9, 0xa, 0xb, 0xc, 0xd, 0x20, 0x85, 0xa0, 0x1680,
    0x2000, 0x2001, 0x2002, 0x2003, 0x2004, 0x2005, 0x2006, 0x2007,
    0x2008, 0x2009, 0x200a, 0x2028, 0x2029, 0x202f, 0x205f, 0x3000] : List Nat).contains c.toNat

/-- Rust's `str::trim`: drop leading and trailing whitespace characters. -/
def strTrim (s : String) : String :=
  String.mk (((s.data.dropWhile isRustWhitespace).reverse.dropWhile isRustWhitespace).reverse)

/-- The application configuration (src/config.rs). -/
structure Config where
  openrouter_api_key : String
  deriving DecidableEq, Repr

/-- `Config::load` (src/config.rs lines 12-23) over a process
environment given as a key/value list: read `OPENROUTER_API_KEY`,
failing with a descriptive message when it is unset; fail with a second
descriptive message when the value trims to empty; otherwise return the
value untransformed. -/
def Config.load (env : List (String × String)) : Except String Config :=
  match env.lookup "OPENROUTER_API_KEY" with
  | none =>
    .error "OPENROUTER_API_KEY environment variable is not set. Please set it to your OpenRouter API key."
  | some v =>
    if strTrim v = "" then
      .error "OPENROUTER_API_KEY environment variable is empty. Please provide a valid API key."
    else
      .ok ⟨v⟩

/-- The command-line flags of src/main.rs. -/
structure Args where
  no_auto_stage : Bool
  dry_run : Bool
  verbose : Bool
  deriving DecidableEq, Repr

/-- Results the orchestrator obtains from its collaborators during one
run: the first `has_staged_changes` answer, the result of
`stage_all_changes`, the re-checked `has_staged_changes` answer, the
result of `get_staged_diff`, the generated message (or the client's
error), and the result of `GitManager::commit`. -/
structure World where
  staged1 : Bool
  stageResult : Except String Unit
  staged2 : Bool
  diffResult : Except String String
  genResult : Except String String
  commitResult : Except String Unit
  deriving DecidableEq, Repr

/-- Observable side-effecting calls the orchestrator makes on the
repository and the generation client. -/
inductive Eff where
  | checkStaged (answer : Bool)
  | stageAllChanges
  | getDiff
  | generateMessage
  | commitCall (msg : String)
  deriving DecidableEq, Repr

/-- Outcome of one orchestrator run: the process result, the ordered
trace of collaborator calls, and the lines printed to stdout. -/
structure RunOut where
  result : Except String Unit
  effects : List Eff
  printed : List String
  deriving DecidableEq, Repr

/-- The tail of `main` (src/main.rs lines 69-100): extract the staged
diff, guard against an empty diff, generate the message, print it framed
by separator lines, then either stop (dry run) or commit. -/
def genAndCommit (args : Args) (w : World) (effs : List Eff) : RunOut :=
  let effs1 := effs ++ [Eff.getDiff]
  match w.diffResult with
  | .error e => ⟨.error e, effs1, []⟩
  | .ok diff =>
    if strTrim diff = "" then
      ⟨.error "No staged changes found to generate commit message for.", effs1, []⟩
    else
      let effs2 := effs1 ++ [Eff.generateMessage]
      match w.genResult with
      | .error e =>
        ⟨.error ("Failed to generate commit message from OpenRouter API: " ++ e), effs2, []⟩
      | .ok msg =>
        let framed := ["Generated commit message:", "------------------------",
                       msg, "------------------------"]
        if args.dry_run then
          ⟨.ok (), effs2,
           framed ++ ["Dry run mode - commit message generated but not committed."]⟩
        else
          let effs3 := effs2 ++ [Eff.commitCall msg]
          match w.commitResult with
          | .error e => ⟨.error e, effs3, framed⟩
          | .ok _ =>
            ⟨.ok (), effs3,
             framed ++ ["✅ Successfully committed changes with AI-generated message!"]⟩

/-- `main` (src/main.rs lines 50-100) from the first staged-changes
check on (credential loading and repository opening precede this and are
modelled by `Config.load` and `RepoState`): if nothing is staged, either
fail under `--no-auto-stage` or stage everything and re-check, failing
when still nothing is staged; then proceed to diff, generation and
commit. -/
def runMain (args : Args) (w : World) : RunOut :=
  let effs0 : List Eff := [Eff.checkStaged w.staged1]
  if !w.staged1 then
    if args.no_auto_stage then
      ⟨.error "No staged changes found and --no-auto-stage flag is set. Please stage some changes first.",
       effs0, []⟩
    else
      let effs1 := effs0 ++ [Eff.stageAllChanges]
      match w.stageResult with
      | .error e => ⟨.error e, effs1, []⟩
      | .ok _ =>
        let effs2 := effs1 ++ [Eff.checkStaged w.staged2]
        if !w.staged2 then
          ⟨.error "No changes to commit after staging all files.", effs2, []⟩
        else
          genAndCommit args w effs2
  else
    genAndCommit args w effs0

/-- The decoded text of a diff line, or the empty string when the
content bytes are not valid UTF-8. -/
def lineText (l : DiffLine) : String :=
  match from_utf8 l.content with
  | some c => c
  | none => ""

/-- The fragment the specification's origin table assigns to one diff
line: the fixed textual marker of the origin followed by the line's
content, with lines of any other origin dropped. -/
def claimFragment (l : DiffLine) : String :=
  if l.origin = '+' then "+" ++ lineText l
  else if l.origin = '-' then "-" ++ lineText l
  else if l.origin = ' ' then " " ++ lineText l
  else if l.origin = 'F' then "--- " ++ lineText l
  else if l.origin = 'H' then "@@ " ++ lineText l
  else ""

/-- Concatenation of the per-line fragments in encounter order. -/
def fragmentsText : List DiffLine → String
  | [] => ""
  | l :: ls => claimFragment l ++ fragmentsText ls

theorem push_eq_append (s : String) (c : Char) : s.push c = s ++ String.singleton c := by
  apply String.ext
  simp [String.singleton]

theorem printLine_decodable (acc : String) (l : DiffLine) (c : String)
    (h : from_utf8 l.content = some c) :
    printLine acc l = acc ++ claimFragment l := by
  have hlt : lineText l = c := by simp [lineText, h]
  by_cases h1 : l.origin = '+'
  · apply String.ext
    simp [printLine, claimFragment, h1, h, hlt]
  · by_cases h2 : l.origin = '-'
    · apply String.ext
      simp [printLine, claimFragment, h1, h2, h, hlt]
    · by_cases h3 : l.origin = ' '
      · apply String.ext
        simp [printLine, claimFragment, h1, h2, h3, h, hlt]
      · by_cases h4 : l.origin = 'F'
        · apply String.ext
          simp [printLine, claimFragment, h1, h2, h3, h4, h, hlt]
        · by_cases h5 : l.origin = 'H'
          · apply String.ext
            simp [printLine, claimFragment, h1, h2, h3, h4, h5, h, hlt]
          · simp [printLine, claimFragment, h1, h2, h3, h4, h5]

theorem foldl_printLine_eq (lines : List DiffLine) :
    ∀ acc : String, (∀ l ∈ lines, (from_utf8 l.content).isSome) →
      lines.foldl printLine acc = acc ++ fragmentsText lines := by
  induction lines with
  | nil =>
    intro acc _
    simp [fragmentsText]
  | cons l ls ih =>
    intro acc h
    have hl : (from_utf8 l.content).isSome := h l (by simp)
    obtain ⟨c, hc⟩ := Option.isSome_iff_exists.mp hl
    have hls : ∀ x ∈ ls, (from_utf8 x.content).isSome := fun x hx => h x (by simp [hx])
    simp only [List.foldl_cons]
    rw [printLine_decodable acc l c hc, ih _ hls, fragmentsText, String.append_assoc]

/-- Claim C3: for diff lines whose content decodes, the serializer maps
each line's origin to its fixed textual marker — `'+'`, `'-'`, space,
`"--- "` for file headers, `"@@ "` for hunk headers, dropped for any
other origin — and concatenates the fragments in the encounter order
produced by the diff engine, never reordering them. -/
theorem serializeDiff_fragment_concat (lines : List DiffLine)
    (h : ∀ l ∈ lines, (from_utf8 l.content).isSome) :
    serializeDiff lines = fragmentsText lines := by
  unfold serializeDiff
  rw [foldl_printLine_eq lines "" h, String.empty_append]

/-- Witness for C3 at a concrete six-line diff covering every origin. -/
theorem serializeDiff_fragment_concat_witness :
    serializeDiff [⟨'+', [104]⟩, ⟨'-', [105]⟩, ⟨' ', [106]⟩, ⟨'F', [107]⟩, ⟨'H', [108]⟩,
        ⟨'>', [109]⟩] =
      fragmentsText [⟨'+', [104]⟩, ⟨'-', [105]⟩, ⟨' ', [106]⟩, ⟨'F', [107]⟩, ⟨'H', [108]⟩,
        ⟨'>', [109]⟩] :=
  serializeDiff_fragment_concat _ (by decide)

/-- Claim C2 counterexample: an addition line whose single content byte
`0xFF` is not valid UTF-8 still emits its origin marker `'+'`, so the
line does not contribute nothing to the output. -/
theorem invalid_utf8_line_emits_marker :
    from_utf8 [0xff] = none ∧
    serializeDiff [⟨'+', [0xff]⟩] = "+" ∧
    serializeDiff [⟨'+', [0xff]⟩] ≠ serializeDiff [] := by
  refine ⟨by decide, by decide, by decide⟩

theorem printLine_invalid (acc : String) (l : DiffLine)
    (h : from_utf8 l.content = none) :
    printLine acc l =
      if l.origin = '+' ∨ l.origin = '-' ∨ l.origin = ' ' then acc.push l.origin
      else acc := by
  by_cases h1 : l.origin = '+' ∨ l.origin = '-' ∨ l.origin = ' '
  · simp [printLine, h1, h]
  · by_cases h2 : l.origin = 'F'
    · simp [printLine, h1, h2, h]
    · by_cases h3 : l.origin = 'H'
      · simp [printLine, h1, h2, h3, h]
      · simp [printLine, h1, h2, h3]

/-- Claim C2 (amended): a diff line whose content bytes are not valid
UTF-8 contributes exactly its one-character origin marker when its
origin is `'+'`, `'-'` or `' '` and nothing at all otherwise, and the
remaining lines are still serialized normally. -/
theorem invalid_utf8_line_serialization (pre post : List DiffLine) (l : DiffLine)
    (h : from_utf8 l.content = none) :
    serializeDiff (pre ++ l :: post) =
      List.foldl printLine
        (if l.origin = '+' ∨ l.origin = '-' ∨ l.origin = ' '
          then (serializeDiff pre).push l.origin
          else serializeDiff pre) post := by
  simp only [serializeDiff, List.foldl_append, List.foldl_cons]
  rw [printLine_invalid _ _ h]

/-- Witness for the amended C2 at a concrete three-line diff whose
middle deletion line carries invalid UTF-8. -/
theorem invalid_utf8_line_serialization_witness :
    serializeDiff ([⟨'+', [104]⟩] ++ (DiffLine.mk '-' [0xff]) :: [⟨'H', [105]⟩]) =
      List.foldl printLine
        (if (DiffLine.mk '-' [0xff]).origin = '+' ∨ (DiffLine.mk '-' [0xff]).origin = '-' ∨
            (DiffLine.mk '-' [0xff]).origin = ' '
          then (serializeDiff [⟨'+', [104]⟩]).push (DiffLine.mk '-' [0xff]).origin
          else serializeDiff [⟨'+', [104]⟩]) [⟨'H', [105]⟩] :=
  invalid_utf8_line_serialization [⟨'+', [104]⟩] [⟨'H', [105]⟩] (DiffLine.mk '-' [0xff])
    (by decide)

/-- The repository state after a successful `commit` on `s` with
resolved signature `sig`, parent `hd` and message `M`: the index tree
written to the object database, the new commit object stored under the
fresh id, and HEAD moved to it. -/
def commitResultState (s : RepoState) (sig : Signature) (hd : Nat) (M : String) : RepoState :=
  { s with
      odbTrees := s.indexTree :: s.odbTrees
      commits :=
        (s.nextId, ⟨s.indexTree, [hd], sig, sig, M⟩) :: s.commits
      head := some s.nextId
      nextId := s.nextId + 1 }

theorem fallback_signature_ok : fallbackSignatureResult = .ok fallbackSignature := by
  decide

theorem commit_ok (s : RepoState) (M : String) (sig : Signature) (hd : Nat) (C : CommitObj)
    (hsig : get_signature s = .ok sig)
    (hh : s.head = some hd) (hC : s.commits.lookup hd = some C) :
    commit s M = .ok (commitResultState s sig hd M) := by
  simp [commit, hsig, hh, hC, commitResultState]

/-- A sample parent commit object used by concrete witnesses. -/
def sampleCommitObj : CommitObj :=
  ⟨7, [], ⟨"a", "b"⟩, ⟨"a", "b"⟩, "x"⟩

/-- A sample repository whose HEAD is commit 3 with tree 7 and whose
index writes the same tree 7. -/
def sampleRepo : RepoState :=
  ⟨none, 7, some 3, [(3, sampleCommitObj)], [], 10⟩

/-- A repository configuration holding a present-but-empty `user.name`
next to a non-empty `user.email`. -/
def emptyNameRepo : RepoState :=
  ⟨some [("user.name", ""), ("user.email", "a@b.c")], 7, some 3, [(3, sampleCommitObj)], [], 10⟩

/-- Claim C1 counterexample: when `user.name` is present but empty (and
`user.email` present and non-empty), the signature is not the fallback
identity the claim demands — signature creation fails inside
`Signature::now` and `commit` fails with the signature-creation error
instead of succeeding. -/
theorem get_signature_empty_value_not_fallback :
    get_signature emptyNameRepo =
      .error "Failed to create signature from git config: Signature cannot have an empty name or email" ∧
    get_signature emptyNameRepo ≠ .ok fallbackSignature ∧
    commit emptyNameRepo "m" =
      .error "Failed to create git signature: Failed to create signature from git config: Signature cannot have an empty name or email" :=
  ⟨by decide, by decide, by decide⟩

/-- Claim C1 (amended): if both `user.name` and `user.email` can be read
from the repository configuration, the signature is built from exactly
those strings by `Signature::now` — which trims whitespace and succeeds
with the trimmed values when neither field contains angle brackets and
neither trims to empty, but fails (and makes `Commit` fail with a
signature-creation error rather than fall back) when either readable
value trims to empty.  Only when either key cannot be read, or the
configuration cannot be opened, is the fixed fallback identity used, and
then `Commit` still succeeds whenever HEAD resolves. -/
theorem get_signature_resolution (s : RepoState) :
    (∀ cfg n e, s.config = some cfg →
      cfg.lookup "user.name" = some n → cfg.lookup "user.email" = some e →
      containsAngle n = false → containsAngle e = false →
      extractTrimmed n ≠ "" → extractTrimmed e ≠ "" →
      get_signature s = .ok ⟨extractTrimmed n, extractTrimmed e⟩) ∧
    (∀ cfg n e, s.config = some cfg →
      cfg.lookup "user.name" = some n → cfg.lookup "user.email" = some e →
      containsAngle n = false → containsAngle e = false →
      (extractTrimmed n = "" ∨ extractTrimmed e = "") →
      ∀ M, commit s M =
        .error ("Failed to create git signature: " ++
          ("Failed to create signature from git config: " ++
            "Signature cannot have an empty name or email"))) ∧
    (∀ cfg, s.config = some cfg →
      cfg.lookup "user.name" = none ∨ cfg.lookup "user.email" = none →
      get_signature s = .ok fallbackSignature) ∧
    (s.config = none → get_signature s = .ok fallbackSignature) ∧
    (∀ sig M hd C, get_signature s = .ok sig →
      s.head = some hd → s.commits.lookup hd = some C →
      ∃ s1, commit s M = .ok s1 ∧
        s1.commits.lookup s.nextId = some ⟨s.indexTree, [hd], sig, sig, M⟩) := by
  refine ⟨?_, ?_, ?_, ?_, ?_⟩
  · intro cfg n e hc hn he han hae hn1 he1
    simp [get_signature, hc, hn, he, signature_now, han, hae, hn1, he1]
  · intro cfg n e hc hn he han hae hor M
    rcases hor with h1 | h1 <;>
      simp [commit, get_signature, hc, hn, he, signature_now, han, hae, h1]
  · intro cfg hc hor
    rcases hor with hn | he
    · rcases hm : cfg.lookup "user.email" with _ | v <;>
        simp [get_signature, hc, hn, hm, fallback_signature_ok]
    · rcases hm : cfg.lookup "user.name" with _ | v <;>
        simp [get_signature, hc, he, hm, fallback_signature_ok]
  · intro hc
    simp [get_signature, hc, fallback_signature_ok]
  · intro sig M hd C hsig hh hC
    refine ⟨commitResultState s sig hd M, commit_ok s M sig hd C hsig hh hC, ?_⟩
    simp [commitResultState, List.lookup]

/-- Witness for the amended C1: a repository whose configuration cannot
be opened commits with the fallback identity. -/
theorem get_signature_resolution_witness :
    ∃ s1, commit sampleRepo "msg" = .ok s1 ∧
      s1.commits.lookup sampleRepo.nextId =
        some ⟨sampleRepo.indexTree, [3], fallbackSignature, fallbackSignature, "msg"⟩ :=
  (get_signature_resolution sampleRepo).2.2.2.2 fallbackSignature "msg" 3 sampleCommitObj
    (by decide) rfl (by decide)

/-- Claim C4 counterexample: a repository whose HEAD resolves to a
stored parent commit on which `commit` nevertheless creates no commit —
it fails at signature creation because the configured `user.name` is
present but empty. -/
theorem commit_resolvable_head_signature_failure :
    emptyNameRepo.head = some 3 ∧
    emptyNameRepo.commits.lookup 3 = some sampleCommitObj ∧
    commit emptyNameRepo "m2" =
      .error "Failed to create git signature: Failed to create signature from git config: Signature cannot have an empty name or email" :=
  ⟨rfl, by decide, by decide⟩

/-- Claim C4 (amended): when identity resolution succeeds and HEAD
resolves to a parent commit, `commit` with message `M` creates a commit
whose tree is the tree written from the index, whose sole parent is that
commit, whose author and committer are the same resolved signature and
whose message is exactly `M`, and it moves HEAD to the new commit; when
HEAD cannot be resolved to a parent commit, `commit` fails with an
error, and when signature creation fails, `commit` fails with that
error under the signature-creation context. -/
theorem commit_spec (s : RepoState) (M : String) :
    (∀ sig hd C, get_signature s = .ok sig →
      s.head = some hd → s.commits.lookup hd = some C →
      ∃ s1, commit s M = .ok s1 ∧
        s1.commits.lookup s.nextId = some ⟨s.indexTree, [hd], sig, sig, M⟩ ∧
        s1.head = some s.nextId) ∧
    (∀ sig, get_signature s = .ok sig → s.head = none →
      commit s M = .error "Failed to get HEAD reference") ∧
    (∀ sig hd, get_signature s = .ok sig → s.head = some hd →
      s.commits.lookup hd = none →
      commit s M = .error "Failed to get parent commit") ∧
    (∀ e, get_signature s = .error e →
      commit s M = .error ("Failed to create git signature: " ++ e)) := by
  refine ⟨?_, ?_, ?_, ?_⟩
  · intro sig hd C hsig hh hC
    refine ⟨commitResultState s sig hd M, commit_ok s M sig hd C hsig hh hC, ?_, rfl⟩
    simp [commitResultState, List.lookup]
  · intro sig hsig hh
    simp [commit, hsig, hh]
  · intro sig hd hsig hh hC
    simp [commit, hsig, hh, hC]
  · intro e hsig
    simp [commit, hsig]

/-- Witness for the amended C4 at a concrete repository with HEAD
commit 3 and an unopenable configuration. -/
theorem commit_spec_witness :
    ∃ s1, commit sampleRepo "msg2" = .ok s1 ∧
      s1.commits.lookup sampleRepo.nextId =
        some ⟨sampleRepo.indexTree, [3], fallbackSignature, fallbackSignature, "msg2"⟩ ∧
      s1.head = some sampleRepo.nextId :=
  (commit_spec sampleRepo "msg2").1 fallbackSignature 3 sampleCommitObj (by decide) rfl
    (by decide)

/-- Claim C10: `commit` imposes no non-emptiness precondition on the
staged delta: when the index writes a tree identical to the parent
commit's tree (and signature resolution succeeds, one of the error
sources the claim itself permits), the commit still succeeds and
creates a commit whose tree equals its parent's tree; and every error
of `commit` traces to signature creation or HEAD/parent resolution (the
index write and object writes, environmental I/O faults, being the
model's only collapsed error sources). -/
theorem commit_empty_delta (s : RepoState) (M : String) :
    (∀ sig hd C, get_signature s = .ok sig →
      s.head = some hd → s.commits.lookup hd = some C → s.indexTree = C.tree →
      ∃ s1, commit s M = .ok s1 ∧
        ∃ c, s1.commits.lookup s.nextId = some c ∧
          c.tree = C.tree ∧ c.parents = [hd] ∧ c.message = M) ∧
    (∀ e, commit s M = .error e →
      (∃ e1, get_signature s = .error e1) ∨ s.head = none ∨
        (∃ hd, s.head = some hd ∧ s.commits.lookup hd = none)) := by
  constructor
  · intro sig hd C hsig hh hC ht
    refine ⟨commitResultState s sig hd M, commit_ok s M sig hd C hsig hh hC,
      ⟨s.indexTree, [hd], sig, sig, M⟩, ?_, ht, rfl, rfl⟩
    simp [commitResultState, List.lookup]
  · intro e he
    rcases hsig : get_signature s with e1 | sig
    · exact Or.inl ⟨e1, rfl⟩
    · rcases hh : s.head with _ | hd
      · exact Or.inr (Or.inl rfl)
      · rcases hC : s.commits.lookup hd with _ | C
        · exact Or.inr (Or.inr ⟨hd, rfl, hC⟩)
        · rw [commit_ok s M sig hd C hsig hh hC] at he
          simp at he

/-- Witness for C10: `sampleRepo`'s index tree equals its HEAD tree and
committing succeeds with an empty commit. -/
theorem commit_empty_delta_witness :
    ∃ s1, commit sampleRepo "same" = .ok s1 ∧
      ∃ c, s1.commits.lookup sampleRepo.nextId = some c ∧
        c.tree = sampleCommitObj.tree ∧ c.parents = [3] ∧ c.message = "same" :=
  (commit_empty_delta sampleRepo "same").1 fallbackSignature 3 sampleCommitObj (by decide) rfl
    (by decide) rfl

/-- Claim C8: `get_staged_diff` is deterministic — when a call succeeds
with text `t`, calling it again on the resulting repository state (the
index untouched; only the object database gained the written tree)
succeeds with the same text `t`. -/
theorem get_staged_diff_deterministic (engine : Nat → Nat → List DiffLine)
    (s : RepoState) (t : String) (s1 : RepoState)
    (hcall : get_staged_diff engine s = .ok (t, s1)) :
    ∃ s2, get_staged_diff engine s1 = .ok (t, s2) := by
  rcases hh : s.head with _ | headId
  · simp [get_staged_diff, hh] at hcall
  · rcases hc : s.commits.lookup headId with _ | headCommit
    · simp [get_staged_diff, hh, hc] at hcall
    · simp only [get_staged_diff, hh, hc] at hcall
      rw [Except.ok.injEq, Prod.mk.injEq] at hcall
      obtain ⟨ht, hs⟩ := hcall
      subst hs
      subst ht
      refine ⟨⟨s.config, s.indexTree, some headId, s.commits,
        s.indexTree :: (s.indexTree :: s.odbTrees), s.nextId⟩, ?_⟩
      simp only [get_staged_diff, hc]

/-- Witness for C8 at a concrete engine and repository. -/
theorem get_staged_diff_deterministic_witness :
    ∃ s2, get_staged_diff (fun _ _ => [⟨'+', [104]⟩])
        (RepoState.mk none 7 (some 3) [(3, sampleCommitObj)] [7] 10) = .ok ("+h", s2) :=
  get_staged_diff_deterministic (fun _ _ => [⟨'+', [104]⟩]) sampleRepo "+h"
    (RepoState.mk none 7 (some 3) [(3, sampleCommitObj)] [7] 10) (by decide)

/-- Claim C6: `Config::load` fails exactly when the
`OPENROUTER_API_KEY` environment variable is unset or its value trims to
empty, with a distinct descriptive message for each failing condition,
and otherwise returns the value with no transformation. -/
theorem config_load_spec (env : List (String × String)) :
    ((∃ e, Config.load env = .error e) ↔
      env.lookup "OPENROUTER_API_KEY" = none ∨
        ∃ v, env.lookup "OPENROUTER_API_KEY" = some v ∧ strTrim v = "") ∧
    (∀ v, env.lookup "OPENROUTER_API_KEY" = some v → strTrim v ≠ "" →
      Config.load env = .ok ⟨v⟩) ∧
    (env.lookup "OPENROUTER_API_KEY" = none →
      Config.load env =
        .error "OPENROUTER_API_KEY environment variable is not set. Please set it to your OpenRouter API key.") ∧
    (∀ v, env.lookup "OPENROUTER_API_KEY" = some v → strTrim v = "" →
      Config.load env =
        .error "OPENROUTER_API_KEY environment variable is empty. Please provide a valid API key.") := by
  refine ⟨?_, ?_, ?_, ?_⟩
  · constructor
    · intro ⟨e, he⟩
      rcases hl : env.lookup "OPENROUTER_API_KEY" with _ | v
      · exact Or.inl rfl
      · refine Or.inr ⟨v, rfl, ?_⟩
        by_contra hne
        simp [Config.load, hl, hne] at he
    · intro hor
      rcases hor with hl | ⟨v, hl, hv⟩
      · exact ⟨"OPENROUTER_API_KEY environment variable is not set. Please set it to your OpenRouter API key.",
          by simp [Config.load, hl]⟩
      · exact ⟨"OPENROUTER_API_KEY environment variable is empty. Please provide a valid API key.",
          by simp [Config.load, hl, hv]⟩
  · intro v hl hv
    simp [Config.load, hl, hv]
  · intro hl
    simp [Config.load, hl]
  · intro v hl hv
    simp [Config.load, hl, hv]

/-- Witness for C6: a set, non-blank key loads unchanged. -/
theorem config_load_spec_witness :
    Config.load [("OPENROUTER_API_KEY", "sk-test")] = .ok ⟨"sk-test"⟩ :=
  (config_load_spec [("OPENROUTER_API_KEY", "sk-test")]).2.1 "sk-test" (by decide) (by decide)

/-- Claim C5: when the first staged-changes check is false, the
orchestrator under `--no-auto-stage` fails with a user-actionable error
without ever calling `stage_all_changes`; otherwise it stages all and
re-checks, failing with a distinguishable message when still nothing is
staged — and in both failure cases no diff is computed and no commit is
attempted. -/
theorem staging_policy (args : Args) (w : World) (h0 : w.staged1 = false) :
    (args.no_auto_stage = true →
      (runMain args w).result =
        .error "No staged changes found and --no-auto-stage flag is set. Please stage some changes first." ∧
      (runMain args w).effects = [Eff.checkStaged false] ∧
      Eff.stageAllChanges ∉ (runMain args w).effects ∧
      Eff.getDiff ∉ (runMain args w).effects ∧
      (∀ m, Eff.commitCall m ∉ (runMain args w).effects)) ∧
    (args.no_auto_stage = false → w.stageResult = .ok () → w.staged2 = false →
      (runMain args w).result = .error "No changes to commit after staging all files." ∧
      (runMain args w).effects =
        [Eff.checkStaged false, Eff.stageAllChanges, Eff.checkStaged false] ∧
      Eff.getDiff ∉ (runMain args w).effects ∧
      (∀ m, Eff.commitCall m ∉ (runMain args w).effects)) ∧
    ("No staged changes found and --no-auto-stage flag is set. Please stage some changes first." ≠
      "No changes to commit after staging all files.") := by
  refine ⟨?_, ?_, by decide⟩
  · intro hna
    simp [runMain, h0, hna]
  · intro hna hst h2
    simp [runMain, h0, hna, hst, h2]

/-- Witness for C5: with nothing staged and `--no-auto-stage`, the run
fails before staging. -/
theorem staging_policy_witness :
    (runMain ⟨true, false, false⟩ ⟨false, .ok (), false, .ok "d", .ok "m", .ok ()⟩).result =
      .error "No staged changes found and --no-auto-stage flag is set. Please stage some changes first." :=
  ((staging_policy ⟨true, false, false⟩ ⟨false, .ok (), false, .ok "d", .ok "m", .ok ()⟩ rfl).1
    rfl).1

/-- Claim C7: a run that reaches diff extraction and obtains a diff that
trims to empty fails with the empty-diff error before the generation
client is invoked and before any commit call. -/
theorem empty_diff_guard (args : Args) (w : World) (d : String)
    (hd : w.diffResult = .ok d) (he : strTrim d = "")
    (hreach : Eff.getDiff ∈ (runMain args w).effects) :
    (runMain args w).result = .error "No staged changes found to generate commit message for." ∧
    Eff.generateMessage ∉ (runMain args w).effects ∧
    (∀ m, Eff.commitCall m ∉ (runMain args w).effects) := by
  rcases hs1 : w.staged1 with _ | _
  · rcases hna : args.no_auto_stage with _ | _
    · rcases hst : w.stageResult with e | u
      · simp [runMain, hs1, hna, hst] at hreach
      · rcases hs2 : w.staged2 with _ | _
        · simp [runMain, hs1, hna, hst, hs2] at hreach
        · simp [runMain, genAndCommit, hs1, hna, hst, hs2, hd, he]
    · simp [runMain, hs1, hna] at hreach
  · simp [runMain, genAndCommit, hs1, hd, he]

/-- Witness for C7 at a whitespace-only diff. -/
theorem empty_diff_guard_witness :
    (runMain ⟨false, false, false⟩ ⟨true, .ok (), true, .ok "  ", .ok "m", .ok ()⟩).result =
      .error "No staged changes found to generate commit message for." :=
  (empty_diff_guard ⟨false, false, false⟩ ⟨true, .ok (), true, .ok "  ", .ok "m", .ok ()⟩
    "  " rfl (by decide) (by decide)).1

/-- Claim C9: a `--dry-run` run that reaches message generation and
obtains a message prints it framed by the separator lines together with
the dry-run notice, ends successfully, and never calls `commit` (so no
new commit object is created and HEAD is untouched). -/
theorem dry_run_frame (args : Args) (w : World) (msg : String)
    (hdry : args.dry_run = true) (hgen : w.genResult = .ok msg)
    (hreach : Eff.generateMessage ∈ (runMain args w).effects) :
    (runMain args w).result = .ok () ∧
    (runMain args w).printed =
      ["Generated commit message:", "------------------------", msg, "------------------------",
       "Dry run mode - commit message generated but not committed."] ∧
    (∀ m, Eff.commitCall m ∉ (runMain args w).effects) := by
  rcases hdr : w.diffResult with e | d
  · rcases hs1 : w.staged1 with _ | _
    · rcases hna : args.no_auto_stage with _ | _
      · rcases hst : w.stageResult with e1 | u
        · simp [runMain, hs1, hna, hst] at hreach
        · rcases hs2 : w.staged2 with _ | _
          · simp [runMain, hs1, hna, hst, hs2] at hreach
          · simp [runMain, genAndCommit, hs1, hna, hst, hs2, hdr] at hreach
      · simp [runMain, hs1, hna] at hreach
    · simp [runMain, genAndCommit, hs1, hdr] at hreach
  · by_cases hemp : strTrim d = ""
    · rcases hs1 : w.staged1 with _ | _
      · rcases hna : args.no_auto_stage with _ | _
        · rcases hst : w.stageResult with e1 | u
          · simp [runMain, hs1, hna, hst] at hreach
          · rcases hs2 : w.staged2 with _ | _
            · simp [runMain, hs1, hna, hst, hs2] at hreach
            · simp [runMain, genAndCommit, hs1, hna, hst, hs2, hdr, hemp] at hreach
        · simp [runMain, hs1, hna] at hreach
      · simp [runMain, genAndCommit, hs1, hdr, hemp] at hreach
    · rcases hs1 : w.staged1 with _ | _
      · rcases hna : args.no_auto_stage with _ | _
        · rcases hst : w.stageResult with e1 | u
          · simp [runMain, hs1, hna, hst] at hreach
          · rcases hs2 : w.staged2 with _ | _
            · simp [runMain, hs1, hna, hst, hs2] at hreach
            · simp [runMain, genAndCommit, hs1, hna, hst, hs2, hdr, hemp, hgen, hdry]
        · simp [runMain, hs1, hna] at hreach
      · simp [runMain, genAndCommit, hs1, hdr, hemp, hgen, hdry]

/-- Witness for C9: staged changes, a generated message and `--dry-run`
print the framed message and make no commit call. -/
theorem dry_run_frame_witness :
    (runMain ⟨false, true, false⟩ ⟨true, .ok (), true, .ok "+d", .ok "msg", .ok ()⟩).result =
      .ok () ∧
    (runMain ⟨false, true, false⟩ ⟨true, .ok (), true, .ok "+d", .ok "msg", .ok ()⟩).printed =
      ["Generated commit message:", "------------------------", "msg", "------------------------",
       "Dry run mode - commit message generated but not committed."] :=
  ⟨(dry_run_frame ⟨false, true, false⟩ ⟨true, .ok (), true, .ok "+d", .ok "msg", .ok ()⟩
      "msg" rfl rfl (by decide)).1,
   (dry_run_frame ⟨false, true, false⟩ ⟨true, .ok (), true, .ok "+d", .ok "msg", .ok ()⟩
      "msg" rfl rfl (by decide)).2.1⟩

end Distill
